import Mathlib

/-!
Verification of the namecheap-ddns daemon (src/main.rs).

The Rust program polls "what is my IP" providers, compares the discovered
IPv4 address with a cached value, and on change issues one Namecheap DDNS
update request per configured host, interpreting the provider's XML reply.

The shallow embedding below translates the repository's own logic:
* `looks_like_ipv4` — the IPv4 validator (`s.parse::<IpAddr>().map(is_ipv4)`);
* `parse_namecheap_response` — the XML response interpreter, modelled over
  the stream of events the external quick-xml reader produces;
* `get_current_ip` — the provider fallback loop, with each provider's
  transport behaviour given as data and the list of contacted providers
  returned as a trace;
* `update_namecheap` — the update client's result structure;
* `runCycle` — one iteration of the polling loop as a pure effect trace.
-/

namespace NamecheapDdns

/-- Events delivered by the streaming XML reader (`quick_xml::Reader`),
as consumed by `parse_namecheap_response`: start tags, text nodes
(already unescaped), end tags, end of file, a parse error, and the
events the Rust `_ => {}` arm ignores (comments, CData, declarations…). -/
inductive XmlEvent where
  | start (name : String)
  | text (s : String)
  | endTag
  | eof
  | err (m : String)
  | other
deriving DecidableEq, Repr

/-- Equality of `Except` results is decidable componentwise, letting
concrete runs of the embedded functions be checked by `decide`. -/
instance {α β : Type} [DecidableEq α] [DecidableEq β] :
    DecidableEq (Except α β) := fun a b =>
  match a, b with
  | .ok x, .ok y =>
    if h : x = y then .isTrue (congrArg Except.ok h)
    else .isFalse (fun hxy => h (Except.ok.inj hxy))
  | .error x, .error y =>
    if h : x = y then .isTrue (congrArg Except.error h)
    else .isFalse (fun hxy => h (Except.error.inj hxy))
  | .ok _, .error _ => .isFalse (fun hxy => Except.noConfusion hxy)
  | .error _, .ok _ => .isFalse (fun hxy => Except.noConfusion hxy)

/-- Whitespace trimming on a character sequence: drop whitespace from
both ends (the model of Rust `str::trim` on the whitespace the program
encounters). -/
def trimChars (cs : List Char) : List Char :=
  ((cs.dropWhile Char.isWhitespace).reverse.dropWhile Char.isWhitespace).reverse

/-- Rust `str::trim` as a `String` operation. -/
def rustTrim (s : String) : String :=
  String.mk (trimChars s.data)

/-- The numeric value of a digit sequence, most significant first. -/
def digitsVal (cs : List Char) : Nat :=
  cs.foldl (fun a c => 10 * a + (c.toNat - 48)) 0

/-- Parse a non-empty all-digit character sequence to its value. -/
def parseDigits (cs : List Char) : Option Nat :=
  if !cs.isEmpty && cs.all Char.isDigit then some (digitsVal cs) else none

/-- Rust `str::parse::<u32>`: optional leading `+`, then one or more ASCII
digits, value within `u32` range. -/
def rustParseU32 (s : String) : Option Nat :=
  let cs := match s.data with
    | '+' :: rest => rest
    | cs => cs
  match parseDigits cs with
  | some n => if n < 2 ^ 32 then some n else none
  | none => none

/-- The interpreter's mutable scanning state: the currently open tag and
the four accumulators of `parse_namecheap_response`. -/
structure ParseState where
  current_tag : Option String
  err_count : Option Nat
  errors : List String
  descriptions : List String
  response_strings : List String
deriving DecidableEq, Repr

/-- Initial scanning state (all accumulators empty). -/
def initState : ParseState :=
  { current_tag := none, err_count := none, errors := [],
    descriptions := [], response_strings := [] }

/-- Classification of one non-empty trimmed text node by the open tag's
name, mirroring the `match tag.as_str()` in `parse_namecheap_response`:
`"ErrCount"` is parsed as `u32` (keeping the last successfully parsed
value), any other tag starting with `"Err"` appends to `errors`,
`"Description"` and `"ResponseString"` append to their lists, all other
tags are ignored. -/
def classifyText (st : ParseState) (tag t : String) : ParseState :=
  if tag = "ErrCount" then
    match rustParseU32 t with
    | some n => { st with err_count := some n }
    | none => st
  else if "Err".data.isPrefixOf tag.data then
    { st with errors := st.errors ++ [t] }
  else if tag = "Description" then
    { st with descriptions := st.descriptions ++ [t] }
  else if tag = "ResponseString" then
    { st with response_strings := st.response_strings ++ [t] }
  else st

/-- The event loop of `parse_namecheap_response`: scans events until
`Eof` (or the end of the stream) and returns the accumulated state, or
returns the parse-error message immediately on a reader error. -/
def runEvents : ParseState → List XmlEvent → Except String ParseState
  | st, [] => .ok st
  | st, ev :: rest =>
    match ev with
    | .start name => runEvents { st with current_tag := some name } rest
    | .endTag => runEvents { st with current_tag := none } rest
    | .eof => .ok st
    | .err m => .error ("Failed to parse Namecheap XML: " ++ m)
    | .other => runEvents st rest
    | .text s =>
      match st.current_tag with
      | none => runEvents st rest
      | some tag =>
        let t := rustTrim s
        if t.data.isEmpty then runEvents st rest
        else runEvents (classifyText st tag t) rest

/-- The message list assembled on the error path:
`errors ++ descriptions ++ response_strings`, in that order. -/
def finalMessages (st : ParseState) : List String :=
  st.errors ++ st.descriptions ++ st.response_strings

/-- The synthesized message used when `ErrCount > 0` but no message text
was extracted. -/
def synthMessage (count : Nat) : String :=
  "Namecheap reported ErrCount=" ++ toString count ++
    " but no error messages were found"

/-- `parse_namecheap_response` over the event stream of the XML body:
`Ok ()` iff the effective error count (last parsed `ErrCount`, or 0 when
never set) is zero; otherwise `Err` with the joined messages, or the
synthesized message when none were collected. -/
def parse_namecheap_response (events : List XmlEvent) : Except String Unit :=
  match runEvents initState events with
  | .error m => .error m
  | .ok st =>
    let count := st.err_count.getD 0
    if count = 0 then .ok ()
    else
      let messages := finalMessages st
      if messages.isEmpty then .error (synthMessage count)
      else .error (String.intercalate "; " messages)

/-- Split a character sequence at every `'.'` (separators removed,
empty pieces kept), as Rust's address parser segments a dotted quad. -/
def splitDot : List Char → List (List Char)
  | [] => [[]]
  | c :: cs =>
    let r := splitDot cs
    if c = '.' then [] :: r
    else (c :: r.headD []) :: r.tail

/-- A digit sequence with a superfluous leading zero (rejected by Rust's
octet parser). -/
def hasLeadingZero : List Char → Bool
  | '0' :: _ :: _ => true
  | _ => false

/-- One dotted-quad octet as Rust's `Ipv4Addr` parser accepts it:
decimal digits, value ≤ 255, no leading zero (except `"0"` itself). -/
def isIpv4Octet (cs : List Char) : Bool :=
  match parseDigits cs with
  | some n => decide (n ≤ 255) && !hasLeadingZero cs
  | none => false

/-- `looks_like_ipv4`: `s.parse::<IpAddr>().map(|ip| ip.is_ipv4())`,
i.e. the string is exactly four valid octets separated by dots
(an IPv6 literal parses but `is_ipv4()` is false, so only the
dotted-quad form yields `true`). -/
def looks_like_ipv4 (s : String) : Bool :=
  match splitDot s.data with
  | [a, b, c, d] => isIpv4Octet a && isIpv4Octet b && isIpv4Octet c && isIpv4Octet d
  | _ => false

/-- UTF-8 encoded size of one character, as in Rust `String` storage. -/
def utf8CharSize (c : Char) : Nat :=
  if c.toNat < 0x80 then 1
  else if c.toNat < 0x800 then 2
  else if c.toNat < 0x10000 then 3
  else 4

/-- Rust `str::len`: the length in UTF-8 bytes of a character sequence. -/
def utf8Len (s : List Char) : Nat :=
  (s.map utf8CharSize).sum

/-- Rust byte slicing `&text[..i]` on a string given as its character
sequence: `some` prefix when byte index `i` falls on a character
boundary within the string, `none` when the slice panics (index out of
bounds or inside a multi-byte character). -/
def byteSlicePrefix : List Char → Nat → Option (List Char)
  | _, 0 => some []
  | [], _ + 1 => none
  | c :: cs, i + 1 =>
    let k := utf8CharSize c
    if k ≤ i + 1 then (byteSlicePrefix cs (i + 1 - k)).map (c :: ·)
    else none

/-- The logged preview `&text[..text.len().min(limit)]` computed in
`get_current_ip` (limit 80) and `update_namecheap` (limit 160):
`none` models a panic of the byte slice. -/
def bodyPreview (body : List Char) (limit : Nat) : Option (List Char) :=
  byteSlicePrefix body (min (utf8Len body) limit)

/-- Transport behaviour of one IP provider, covering the arms of the
`match client.get(p).send().await` in `get_current_ip`:
`sendErr` — the send fails; `respFail` — a response with a non-success
status; `respOk r` — a success status whose body read (`resp.text()`)
yields `r` (the read itself can fail). -/
inductive ProviderResult where
  | sendErr
  | respFail
  | respOk (textResult : Except String String)
deriving DecidableEq, Repr

/-- How one resolution ends: a returned result (with the trace of
providers contacted, in order), or a process panic — the preview byte
slice on a non-IPv4 body cutting a multi-byte character — with the
providers contacted up to and including the panicking one. -/
inductive ResolverOutcome where
  | done (res : Except String String) (contacted : List String)
  | panicked (contacted : List String)
deriving DecidableEq, Repr

/-- Record one more contacted provider in front of an outcome's trace. -/
def consContact (p : String) : ResolverOutcome → ResolverOutcome
  | .done res tr => .done res (p :: tr)
  | .panicked tr => .panicked (p :: tr)

/-- The trace of contacted providers of an outcome. -/
def contactedOf : ResolverOutcome → List String
  | .done _ tr => tr
  | .panicked tr => tr

/-- `get_current_ip` over providers paired with their transport
behaviour. Empty provider strings are skipped without contact; `send`
failures and non-success statuses fall through to the next provider; a
successful status whose body read fails propagates that error
immediately (the `?` on `resp.text().await`); a readable body is
trimmed and validated, returning on the first valid IPv4; an invalid
body has its 80-byte preview computed for the warning — falling through
when the slice succeeds, panicking the process when the byte cut splits
a multi-byte character (main.rs:80). -/
def get_current_ip : List (String × ProviderResult) → ResolverOutcome
  | [] => .done (.error "All IP providers failed or returned invalid IPv4") []
  | (p, r) :: rest =>
    if p.data.isEmpty then get_current_ip rest
    else
      match r with
      | .sendErr => consContact p (get_current_ip rest)
      | .respFail => consContact p (get_current_ip rest)
      | .respOk (.error e) => .done (.error e) [p]
      | .respOk (.ok text) =>
        let ip := rustTrim text
        if looks_like_ipv4 ip then .done (.ok ip) [p]
        else
          match bodyPreview text.data 80 with
          | some _ => consContact p (get_current_ip rest)
          | none => .panicked [p]

/-- Outcome of the HTTP exchange inside `update_namecheap`: the URL
parse, the send, or the body read may fail (each propagated by `?`), or
the exchange completes with a status, the raw body text, and the XML
event stream the reader produces from that body. -/
inductive UpdateExchange where
  | urlErr (e : String)
  | sendErr (e : String)
  | textErr (e : String)
  | completed (status : Nat) (body : String) (events : List XmlEvent)
deriving DecidableEq, Repr

/-- How one update call ends: a value returned to the polling loop, or a
process panic from the 160-byte preview slice in the success-logging
branch. -/
inductive UpdateOutcome where
  | returned (res : Except String Unit)
  | panicked
deriving DecidableEq, Repr

/-- Whether an update call panicked. -/
def isPanicked : UpdateOutcome → Bool
  | .panicked => true
  | .returned _ => false

/-- `update_namecheap`: propagates URL/send/read errors. Once the body is
in hand, a Failure or malformed-XML verdict is only logged (no slicing
happens on that branch) and the function returns `Ok(())`; a Success
verdict computes the 160-byte preview for the info log — returning
`Ok(())` when the slice succeeds and panicking the process when the
byte cut splits a multi-byte character (main.rs:200). -/
def update_namecheap : UpdateExchange → UpdateOutcome
  | .urlErr e => .returned (.error e)
  | .sendErr e => .returned (.error e)
  | .textErr e => .returned (.error e)
  | .completed _ body events =>
    match parse_namecheap_response events with
    | .ok _ =>
      match bodyPreview body.data 160 with
      | some _ => .returned (.ok ())
      | none => .panicked
    | .error _ => .returned (.ok ())

/-- Observable side effects of one polling-loop iteration: an update
request issued for a host, or a write of the cache file. -/
inductive Effect where
  | updateCall (host : String)
  | cacheWrite (ip : String)
deriving DecidableEq, Repr

/-- The `for host in &config.hosts` loop: each host is attempted in
order; an `Err` returned by `update_namecheap` is logged
(`error!("Error updating host …")`) and the loop continues to the next
host; a panic inside `update_namecheap` stops the round at that host
(its request was issued, the rest never run). The boolean records
whether the round panicked. -/
def updateRound (upd : String → UpdateOutcome) : List String → List Effect × Bool
  | [] => ([], false)
  | h :: rest =>
    match upd h with
    | .returned _ =>
      let out := updateRound upd rest
      (Effect.updateCall h :: out.1, out.2)
    | .panicked => ([Effect.updateCall h], true)

/-- One iteration of the `loop` in `main`, as the trace of effects it
performs. `resolve` is the result of `get_current_ip`; `cache` is the
cache file's content (`none` when `/data/last_ip` does not exist; a read
failure yields the empty string via `unwrap_or_default`, so it is
represented as `some ""`); `upd h` is the outcome of `update_namecheap`
for host `h`. On resolver failure the cycle only sleeps; when the
resolved IP equals the trimmed cached IP no effect is performed;
otherwise the hosts are attempted in order and — unless the round
panicked, killing the process — the cache is then written. -/
def runCycle (resolve : Except String String) (cache : Option String)
    (hosts : List String) (upd : String → UpdateOutcome) : List Effect :=
  match resolve with
  | .error _ => []
  | .ok current_ip =>
    let last_ip := rustTrim (cache.getD "")
    if last_ip = current_ip then []
    else
      let round := updateRound upd hosts
      if round.2 then round.1
      else round.1 ++ [Effect.cacheWrite current_ip]

/-! Theorems about the embedded program. -/

/-- Events that terminate the scanning loop of `parse_namecheap_response`:
end of file or a reader error. -/
def isTerminator : XmlEvent → Bool
  | .eof => true
  | .err _ => true
  | _ => false

/-- A successful scan determines `parse_namecheap_response`: the result
is the count/message analysis of the final state. -/
theorem parse_eq_of_runEvents (evs : List XmlEvent) (st : ParseState)
    (h : runEvents initState evs = .ok st) :
    parse_namecheap_response evs =
      (if st.err_count.getD 0 = 0 then .ok ()
       else if (finalMessages st).isEmpty then
         .error (synthMessage (st.err_count.getD 0))
       else .error (String.intercalate "; " (finalMessages st))) := by
  unfold parse_namecheap_response
  rw [h]

/-- C1: for every XML response body whose effective error count is zero
(the `ErrCount` field parses to 0, or is absent, so the scanned
`err_count` defaults to 0), `parse_namecheap_response` classifies the
response as Success (`Ok ()`), regardless of any `Description`,
`ResponseString` or `Err`-family text collected along the way. -/
theorem C1_zero_count_success (evs : List XmlEvent) (st : ParseState)
    (h : runEvents initState evs = .ok st)
    (hc : st.err_count.getD 0 = 0) :
    parse_namecheap_response evs = .ok () := by
  rw [parse_eq_of_runEvents evs st h, if_pos hc]

/-- Witness for C1: `<ErrCount>0</ErrCount><Description>Update done</Description>`
yields Success even though the description text is non-empty. -/
theorem C1_zero_count_success_witness :
    parse_namecheap_response
      [XmlEvent.start "ErrCount", XmlEvent.text "0", XmlEvent.endTag,
       XmlEvent.start "Description", XmlEvent.text "Update done",
       XmlEvent.endTag, XmlEvent.eof] = .ok () :=
  C1_zero_count_success _
    { current_tag := none, err_count := some 0, errors := [],
      descriptions := ["Update done"], response_strings := [] }
    (by decide) (by decide)

/-- C6: when no occurrence of `ErrCount` carried text that parses as an
unsigned integer, the scanned `err_count` is never set (`none`), the
effective count defaults to zero and the response is classified as
Success, even if `Err`-family tags are present. -/
theorem C6_unset_count_success (evs : List XmlEvent) (st : ParseState)
    (h : runEvents initState evs = .ok st)
    (hc : st.err_count = none) :
    parse_namecheap_response evs = .ok () := by
  rw [parse_eq_of_runEvents evs st h, if_pos (by rw [hc]; rfl)]

/-- Witness for C6: `<ErrCount>oops</ErrCount><Err1>boom</Err1>` — the
count never parses, so the response reads as Success despite the `Err1`
message. -/
theorem C6_unset_count_success_witness :
    parse_namecheap_response
      [XmlEvent.start "ErrCount", XmlEvent.text "oops", XmlEvent.endTag,
       XmlEvent.start "Err1", XmlEvent.text "boom", XmlEvent.endTag,
       XmlEvent.eof] = .ok () :=
  C6_unset_count_success _
    { current_tag := none, err_count := none, errors := ["boom"],
      descriptions := [], response_strings := [] }
    (by decide) (by decide)

/-- C3: for every body with a positive effective error count the
Interpreter classifies Failure, and whenever at least one message was
collected the failure payload is exactly
`errors ++ descriptions ++ response_strings` (joined with `"; "`), in
that concatenation order — Err-family texts in document order, then
descriptions, then response strings, neither merged nor sorted. -/
theorem C3_failure_message_order (evs : List XmlEvent) (st : ParseState)
    (h : runEvents initState evs = .ok st)
    (hc : st.err_count.getD 0 ≠ 0) :
    (∃ e, parse_namecheap_response evs = .error e) ∧
    (st.errors ++ st.descriptions ++ st.response_strings ≠ [] →
      parse_namecheap_response evs =
        .error (String.intercalate "; "
          (st.errors ++ st.descriptions ++ st.response_strings))) := by
  constructor
  · rw [parse_eq_of_runEvents evs st h, if_neg hc]
    split
    · exact ⟨_, rfl⟩
    · exact ⟨_, rfl⟩
  · intro hm
    have hfalse : (finalMessages st).isEmpty = false := by
      unfold finalMessages
      cases hgl : st.errors ++ st.descriptions ++ st.response_strings with
      | nil => exact absurd hgl hm
      | cons a l => rfl
    rw [parse_eq_of_runEvents evs st h, if_neg hc, hfalse]
    simp [finalMessages]

/-- Witness for C3:
`<ErrCount>2</ErrCount><Err1>bad host</Err1><Err2>bad domain</Err2>`
fails with messages `"bad host"` then `"bad domain"`, in that order. -/
theorem C3_failure_message_order_witness :
    parse_namecheap_response
      [XmlEvent.start "ErrCount", XmlEvent.text "2", XmlEvent.endTag,
       XmlEvent.start "Err1", XmlEvent.text "bad host", XmlEvent.endTag,
       XmlEvent.start "Err2", XmlEvent.text "bad domain", XmlEvent.endTag,
       XmlEvent.eof] = .error "bad host; bad domain" :=
  (C3_failure_message_order _
    { current_tag := none, err_count := some 2,
      errors := ["bad host", "bad domain"], descriptions := [],
      response_strings := [] }
    (by decide) (by decide)).2 (by decide)

/-- C4: for every body with a positive effective error count from which
no message text at all was extracted, the Failure carries exactly the
one synthesized message naming that count — a failure is never reported
with zero explanatory messages. -/
theorem C4_synthesized_message (evs : List XmlEvent) (st : ParseState)
    (h : runEvents initState evs = .ok st)
    (hc : st.err_count.getD 0 ≠ 0)
    (hm : st.errors ++ st.descriptions ++ st.response_strings = []) :
    parse_namecheap_response evs =
      .error (synthMessage (st.err_count.getD 0)) := by
  have htrue : (finalMessages st).isEmpty = true := by
    unfold finalMessages
    rw [hm]
    rfl
  rw [parse_eq_of_runEvents evs st h, if_neg hc, htrue]
  rfl

/-- Witness for C4: `<ErrCount>1</ErrCount>` with no message tags fails
with the single synthesized message mentioning count 1. -/
theorem C4_synthesized_message_witness :
    parse_namecheap_response
      [XmlEvent.start "ErrCount", XmlEvent.text "1", XmlEvent.endTag,
       XmlEvent.eof] =
      .error "Namecheap reported ErrCount=1 but no error messages were found" :=
  C4_synthesized_message _
    { current_tag := none, err_count := some 1, errors := [],
      descriptions := [], response_strings := [] }
    (by decide) (by decide) (by decide)

/-- Reaching a reader error (no terminator before it) makes the scan
return the parse-error message at once, from any intermediate state. -/
theorem runEvents_reader_error (m : String) (rest : List XmlEvent) :
    ∀ (pre : List XmlEvent) (st : ParseState),
      (∀ ev ∈ pre, isTerminator ev = false) →
      runEvents st (pre ++ XmlEvent.err m :: rest) =
        .error ("Failed to parse Namecheap XML: " ++ m)
  | [], _, _ => rfl
  | ev :: pre, st, hpre => by
    have hev : isTerminator ev = false := hpre ev (List.mem_cons_self _ _)
    have hrec := fun st => runEvents_reader_error m rest pre st
      (fun e he => hpre e (List.mem_cons_of_mem _ he))
    cases ev with
    | start name => simpa [runEvents] using hrec _
    | endTag => simpa [runEvents] using hrec _
    | other => simpa [runEvents] using hrec _
    | eof => simp [isTerminator] at hev
    | err s => simp [isTerminator] at hev
    | text s =>
      cases hct : st.current_tag with
      | none => simpa [runEvents, hct] using hrec _
      | some tag =>
        by_cases ht : (rustTrim s).data = []
        · simpa [runEvents, hct, ht] using hrec _
        · simpa [runEvents, hct, ht] using hrec _

/-- C5: for every malformed body — the reader yields an error event after
any run of ordinary events — `parse_namecheap_response` returns a
Failure whose message describes the parse error, discarding whatever was
scanned before it (no partial recovery); the interpreter is a total
function, so it never panics. -/
theorem C5_malformed_xml_failure (pre rest : List XmlEvent) (m : String)
    (hpre : ∀ ev ∈ pre, isTerminator ev = false) :
    parse_namecheap_response (pre ++ XmlEvent.err m :: rest) =
      .error ("Failed to parse Namecheap XML: " ++ m) := by
  unfold parse_namecheap_response
  rw [runEvents_reader_error m rest pre initState hpre]

/-- Witness for C5: an unterminated tag — `<x` followed by the reader's
error — produces the descriptive parse Failure. -/
theorem C5_malformed_xml_failure_witness :
    parse_namecheap_response
      [XmlEvent.start "x", XmlEvent.err "unterminated tag"] =
      .error "Failed to parse Namecheap XML: unterminated tag" :=
  C5_malformed_xml_failure [XmlEvent.start "x"] [] "unterminated tag"
    (by decide)

/-- Provider failures that `get_current_ip` survives by falling through
to the next provider: a failed send, a non-success status, or a readable
body that is not a valid IPv4 address and whose 80-byte preview slice
lands on a character boundary. Excluded, because the program does not
continue past them: a success status whose body read fails (the `?` on
`resp.text().await` aborts the whole resolution) and a non-IPv4 body
whose preview cut splits a multi-byte character (the slice at
main.rs:80 panics the process). -/
def softFail : ProviderResult → Bool
  | .sendErr => true
  | .respFail => true
  | .respOk (.error _) => false
  | .respOk (.ok text) =>
    !looks_like_ipv4 (rustTrim text) && (bodyPreview text.data 80).isSome

/-- C2 counterexample: with two failing providers — the first returning a
success status whose body read fails, the second a transport error — the
resolver aborts on the first (`?` propagates the read error), contacting
only `"p1"` and never `"p2"`, and signals the read error instead of the
all-providers-failed message. -/
theorem C2_body_read_aborts_counterexample :
    get_current_ip
        [("p1", ProviderResult.respOk (Except.error "body read failed")),
         ("p2", ProviderResult.sendErr)] =
      .done (Except.error "body read failed") ["p1"] ∧
    contactedOf (get_current_ip
        [("p1", ProviderResult.respOk (Except.error "body read failed")),
         ("p2", ProviderResult.sendErr)]) ≠ ["p1", "p2"] :=
  ⟨by decide, by decide⟩

/-- C2 amended: when every provider fails by a failed send, a non-success
status, or a non-IPv4 body whose 80-byte preview slice succeeds (body
reads that fail abort the resolution with that error, and non-IPv4
bodies cut mid-character panic the process, so both are excluded),
`get_current_ip` contacts every non-empty provider exactly once, in
order, and signals the all-providers-failed error. -/
theorem C2_all_providers_fail (ps : List (String × ProviderResult))
    (h : ∀ pr ∈ ps, softFail pr.2 = true) :
    get_current_ip ps =
      .done (Except.error "All IP providers failed or returned invalid IPv4")
        ((ps.filter (fun pr => !pr.1.data.isEmpty)).map Prod.fst) := by
  induction ps with
  | nil => rfl
  | cons hd tl ih =>
    obtain ⟨p, r⟩ := hd
    have hr : softFail r = true := h _ (List.mem_cons_self _ _)
    have htl := ih (fun pr hm => h pr (List.mem_cons_of_mem _ hm))
    by_cases hp : p.data.isEmpty
    · simp only [get_current_ip, hp, if_true, htl, List.filter_cons,
        Bool.not_true, Bool.false_eq_true, if_false]
    · cases r with
      | sendErr =>
        simp [get_current_ip, hp, htl, consContact, List.filter_cons]
      | respFail =>
        simp [get_current_ip, hp, htl, consContact, List.filter_cons]
      | respOk textResult =>
        cases textResult with
        | error e => simp [softFail] at hr
        | ok text =>
          simp only [softFail, Bool.and_eq_true, Bool.not_eq_true'] at hr
          obtain ⟨hip, hprev⟩ := hr
          obtain ⟨l, hl⟩ := Option.isSome_iff_exists.mp hprev
          simp [get_current_ip, hp, hip, hl, htl, consContact,
            List.filter_cons]

/-- Witness for the amended C2: providers failing by send error,
non-success status and a short non-IPv4 body (with an empty entry
skipped) are all contacted, in order, and the resolver reports
exhaustion. -/
theorem C2_all_providers_fail_witness :
    get_current_ip
        [("a", ProviderResult.sendErr), ("", ProviderResult.sendErr),
         ("b", ProviderResult.respFail),
         ("c", ProviderResult.respOk (Except.ok "<html>oops</html>"))] =
      .done (Except.error "All IP providers failed or returned invalid IPv4")
        ["a", "b", "c"] :=
  C2_all_providers_fail _ (by decide)

/-- A panic-free update round issues one call per host, in order, and
reports no panic, whatever each call returns. -/
theorem updateRound_no_panic (upd : String → UpdateOutcome)
    (hosts : List String)
    (h : ∀ x ∈ hosts, isPanicked (upd x) = false) :
    updateRound upd hosts = (hosts.map Effect.updateCall, false) := by
  induction hosts with
  | nil => rfl
  | cons hd tl ih =>
    have hhd := h hd (List.mem_cons_self _ _)
    have htl := ih (fun x hx => h x (List.mem_cons_of_mem _ hx))
    cases hu : upd hd with
    | returned r => simp [updateRound, hu, htl]
    | panicked =>
      rw [hu] at hhd
      simp [isPanicked] at hhd

/-- C7 counterexample: with a changed IP and two hosts, a first host
whose update panics (reachable per the preview-slice bug: a
Success-classified body cut mid-character at byte 160) stops the round:
the second host is never attempted and the cache is never written — the
cycle's effects are the single update call. -/
theorem C7_panic_mid_round_counterexample :
    runCycle (.ok "5.6.7.8") (some "1.2.3.4") ["www", "home"]
        (fun h => if h = "www" then UpdateOutcome.panicked
          else UpdateOutcome.returned (.ok ())) =
      [Effect.updateCall "www"] := by decide

/-- C7 amended: whenever the resolved IP differs from the trimmed cached
IP and no host's update panics, the cycle issues exactly one update call
per configured host, in configuration order, for every possible
assignment of returned per-host results (so a host whose update returns
`Err` never suppresses later hosts), and writes the new IP to the cache
strictly after the last host's attempt. (If an update panics — the
preview-slice bug — the round stops at that host: later hosts are not
attempted and the cache is not written.) -/
theorem C7_update_all_then_persist (ip : String) (cache : Option String)
    (hosts : List String) (upd : String → UpdateOutcome)
    (hne : rustTrim (cache.getD "") ≠ ip)
    (hnp : ∀ x ∈ hosts, isPanicked (upd x) = false) :
    runCycle (.ok ip) cache hosts upd =
      hosts.map Effect.updateCall ++ [Effect.cacheWrite ip] := by
  unfold runCycle
  simp [hne, updateRound_no_panic upd hosts hnp]

/-- Witness for C7: cached `1.2.3.4`, resolved `5.6.7.8`, two hosts where
the first update returns `Err` in transport and the second succeeds —
both are attempted and the cache write follows. -/
theorem C7_update_all_then_persist_witness :
    runCycle (.ok "5.6.7.8") (some "1.2.3.4") ["www", "home"]
        (fun h => if h = "www" then UpdateOutcome.returned (.error "timeout")
          else UpdateOutcome.returned (.ok ())) =
      [Effect.updateCall "www", Effect.updateCall "home",
       Effect.cacheWrite "5.6.7.8"] :=
  C7_update_all_then_persist "5.6.7.8" (some "1.2.3.4") ["www", "home"]
    (fun h => if h = "www" then UpdateOutcome.returned (.error "timeout")
      else UpdateOutcome.returned (.ok ()))
    (by decide) (by decide)

/-- C8: whenever the resolved IP equals the trimmed cached IP, the cycle
performs no effect at all: zero update calls and no cache write. -/
theorem C8_unchanged_no_effects (ip : String) (cache : Option String)
    (hosts : List String) (upd : String → UpdateOutcome)
    (heq : rustTrim (cache.getD "") = ip) :
    runCycle (.ok ip) cache hosts upd = [] := by
  unfold runCycle
  simp [heq]

/-- Witness for C8: a cache file holding `"5.6.7.8\n"` (trimmed to the
resolved `5.6.7.8`) leads to an effect-free cycle. -/
theorem C8_unchanged_no_effects_witness :
    runCycle (.ok "5.6.7.8") (some "5.6.7.8\n") ["www", "home"]
      (fun _ => UpdateOutcome.returned (.ok ())) = [] :=
  C8_unchanged_no_effects "5.6.7.8" (some "5.6.7.8\n") ["www", "home"]
    (fun _ => UpdateOutcome.returned (.ok ())) (by decide)

/-- C9 (code bug): a discovery body of 79 ASCII characters followed by
`'é'` is 81 UTF-8 bytes long, so the preview slice `&text[..80]` cuts
inside the two-byte `'é'` — the byte index is not a character boundary
and the slice panics (modelled as `none`), contradicting the claim that
computing the preview is total for every body. The same slice with
limit 160 panics likewise on a 161-byte body. -/
theorem C9_preview_slice_panics :
    bodyPreview (List.replicate 79 'a' ++ ['é']) 80 = none ∧
    bodyPreview (List.replicate 159 'a' ++ ['é']) 160 = none := by
  constructor <;> rfl

set_option maxRecDepth 8000 in
/-- C10 counterexample: a completed exchange whose tag-free body parses
as Success (`ErrCount` absent, so the count defaults to 0) but whose
160-byte preview cut splits the trailing two-byte character of a
161-byte body panics at the preview slice instead of returning `Ok` to
the polling loop. -/
theorem C10_success_preview_panic_counterexample :
    update_namecheap (UpdateExchange.completed 200
        (String.mk (List.replicate 159 'a' ++ ['é']))
        [XmlEvent.text (String.mk (List.replicate 159 'a' ++ ['é'])),
         XmlEvent.eof]) = UpdateOutcome.panicked ∧
    update_namecheap (UpdateExchange.completed 200
        (String.mk (List.replicate 159 'a' ++ ['é']))
        [XmlEvent.text (String.mk (List.replicate 159 'a' ++ ['é'])),
         XmlEvent.eof]) ≠ UpdateOutcome.returned (.ok ()) :=
  ⟨by decide, by decide⟩

/-- C10 amended: once the HTTP exchange of `update_namecheap` completes
(request sent and body read), the function returns `Ok(())` to the
polling loop whenever the interpreter classifies the body as Failure or
the XML is malformed — logical failures are only logged — and also on
Success verdicts whose 160-byte preview slice lands on a character
boundary; consequently an `Err` from `update_namecheap` (the loop's
"Error updating host" branch) can only stem from a URL, send, or
body-read error. (The exception the code forces: a Success-classified
body cut mid-character panics the process instead of returning.) -/
theorem C10_completed_exchange_ok :
    (∀ (status : Nat) (body : String) (events : List XmlEvent),
      (parse_namecheap_response events = .ok () →
        (bodyPreview body.data 160).isSome = true) →
      update_namecheap (UpdateExchange.completed status body events) =
        UpdateOutcome.returned (.ok ())) ∧
    (∀ (ex : UpdateExchange) (msg : String),
      update_namecheap ex = UpdateOutcome.returned (.error msg) →
        ex = UpdateExchange.urlErr msg ∨ ex = UpdateExchange.sendErr msg ∨
          ex = UpdateExchange.textErr msg) := by
  constructor
  · intro status body events hpre
    simp only [update_namecheap]
    cases hp : parse_namecheap_response events with
    | error e => rfl
    | ok v =>
      cases v
      cases hs : bodyPreview body.data 160 with
      | some l => rfl
      | none =>
        have hsome := hpre hp
        rw [hs] at hsome
        simp at hsome
  · intro ex msg hmsg
    cases ex with
    | urlErr e =>
      left
      cases hmsg
      rfl
    | sendErr e =>
      right
      left
      cases hmsg
      rfl
    | textErr e =>
      right
      right
      cases hmsg
      rfl
    | completed status body events =>
      exfalso
      simp only [update_namecheap] at hmsg
      cases hp : parse_namecheap_response events with
      | error e => rw [hp] at hmsg; simp at hmsg
      | ok v =>
        rw [hp] at hmsg
        cases hs : bodyPreview body.data 160 with
        | some l => rw [hs] at hmsg; simp at hmsg
        | none => rw [hs] at hmsg; simp at hmsg

/-- Witness for C10: a Failure-classified body (`ErrCount` 1) still
returns `Ok` to the loop, and a send failure's `Err` is placed among the
transport-level cases. -/
theorem C10_completed_exchange_ok_witness :
    update_namecheap (UpdateExchange.completed 200 "<ErrCount>1</ErrCount>"
        [XmlEvent.start "ErrCount", XmlEvent.text "1", XmlEvent.endTag,
         XmlEvent.eof]) = UpdateOutcome.returned (.ok ()) ∧
    (UpdateExchange.sendErr "connect timeout" =
        UpdateExchange.urlErr "connect timeout" ∨
      UpdateExchange.sendErr "connect timeout" =
        UpdateExchange.sendErr "connect timeout" ∨
      UpdateExchange.sendErr "connect timeout" =
        UpdateExchange.textErr "connect timeout") :=
  ⟨C10_completed_exchange_ok.1 200 "<ErrCount>1</ErrCount>"
      [XmlEvent.start "ErrCount", XmlEvent.text "1", XmlEvent.endTag,
       XmlEvent.eof] (fun hok => absurd hok (by decide)),
   C10_completed_exchange_ok.2 (UpdateExchange.sendErr "connect timeout")
      "connect timeout" rfl⟩

end NamecheapDdns
